import Mathlib

/-!
Shallow embedding of the order-creation and stock-adjustment workflow of the
virello-backend repository (src/routes/orders.js, src/routes/products.js,
src/models/Product.js, and the Order model/schema in src/server.js), together
with theorems settling the frozen claims about it.

Modelling conventions:
- JavaScript numbers appearing in the claims are used only with `+`, `-`, `*`
  and comparisons on integral values, so they are embedded as `Int`.
- Mongoose documents become Lean structures; a catalog is a `List Product`
  keyed by the `_id` hex string.
- `x || y` on JavaScript values is embedded by the `jsOr*` helpers (empty
  string and `0` are falsy).
- Async request handlers are sequential in the source (each `await` resolves
  before the next statement), so they are embedded as pure state-passing
  functions from (catalog, request) to (response, catalog).
- Nondeterministic inputs (the clock date, `Math.random()` draws, the
  generated `frontend_...` placeholder id) are explicit parameters.
-/

namespace Virello

/-- JavaScript `x || y` for an optional string: `undefined` and `""` are falsy. -/
def jsOrS : Option String → Option String → Option String
  | some s, y => if s = "" then y else some s
  | none, y => y

/-- JavaScript `x || d` producing a string: `undefined` and `""` are falsy. -/
def jsOrStr (x : Option String) (dflt : String) : String :=
  match x with
  | some s => if s = "" then dflt else s
  | none => dflt

/-- JavaScript `x || d` for an optional number: `undefined` and `0` are falsy. -/
def jsOrOI (x : Option Int) (dflt : Int) : Int :=
  match x with
  | some v => if v = 0 then dflt else v
  | none => dflt

/-- JavaScript `v || d` for a present number: `0` is falsy. -/
def jsOrII (v : Int) (dflt : Int) : Int :=
  if v = 0 then dflt else v

/-- Hex digit as accepted by the 24-character ObjectId form. -/
def isHexChar (c : Char) : Bool :=
  c.isDigit || (97 ≤ c.toNat && c.toNat ≤ 102) || (65 ≤ c.toNat && c.toNat ≤ 70)

/-- mongoose.Types.ObjectId.isValid on a string: a 24-character hex string or
any 12-character string. -/
def isValidObjectId (s : String) : Bool :=
  (s.length == 24 && s.data.all isHexChar) || s.length == 12

/-- Product.status enum (src/models/Product.js lines 43-47). -/
inductive ProductStatus
  | active
  | inactive
  | out_of_stock
  | discontinued
deriving DecidableEq, Repr

/-- Product document: the fields of src/models/Product.js that the order and
stock workflow reads or writes. `key` is the `_id` hex string; `ordersCount`
is `analytics.orders`. -/
structure Product where
  key : String
  name : String
  price : Int
  stock : Int
  status : ProductStatus
  minOrder : Int
  ordersCount : Int
deriving DecidableEq, Repr

/-- Product.findById over the catalog list. -/
def findById (catalog : List Product) (pid : String) : Option Product :=
  catalog.find? (fun p => p.key == pid)

/-- Product.findByIdAndUpdate: applies `f` to the document whose `_id` matches;
a no-op when no document matches. -/
def findByIdAndUpdate (catalog : List Product) (pid : String) (f : Product → Product) :
    List Product :=
  catalog.map (fun p => if p.key == pid then f p else p)

/-- Stock of the product with the given id, defaulting to 0 when absent. -/
def stockOf (catalog : List Product) (pid : String) : Int :=
  ((findById catalog pid).map Product.stock).getD 0

/-- Status recompute at the end of productSchema.methods.updateStock
(src/models/Product.js lines 154-159): stock 0 forces out_of_stock
unconditionally; otherwise a previous out_of_stock becomes active. -/
def recomputeStockStatus (p : Product) : Product :=
  if p.stock = 0 then { p with status := .out_of_stock }
  else if p.status = .out_of_stock then { p with status := .active }
  else p

/-- Mongoose document save with schema validation (productSchema): the stock
path's `min: 0` bound (src/models/Product.js lines 20-24) rejects a document
whose stock is negative with a ValidationError; otherwise the document is
stored. The other schema bounds are not reachable from this workflow, which
only modifies stock and status. -/
def productSave (p : Product) : Except String Product :=
  if p.stock < 0 then .error "ValidationError" else .ok p

/-- productSchema.methods.updateStock (src/models/Product.js lines 144-162).
Throwing `Error('Insufficient stock')` is embedded as `.error "Insufficient
stock"`; the throw happens before any mutation, so that error case carries no
product. The method ends in `this.save()` (line 161), which runs the schema
validators: an adjustment whose resulting stock is negative is rejected there
with a ValidationError. -/
def updateStock (p : Product) (quantity : Int) (operation : String) :
    Except String Product :=
  if operation = "decrease" then
    if p.stock < quantity then .error "Insufficient stock"
    else productSave (recomputeStockStatus { p with stock := p.stock - quantity })
  else if operation = "increase" then
    productSave (recomputeStockStatus { p with stock := p.stock + quantity })
  else
    productSave (recomputeStockStatus p)

/-- Responses of PATCH /api/products/:id/stock (src/routes/products.js
lines 561-618): 400 validation, 500 (CastError on an invalid id), 404,
400 Insufficient stock, 200. -/
inductive StockResp
  | validationError
  | serverError
  | notFound
  | insufficientStock
  | ok
deriving DecidableEq, Repr

/-- PATCH /api/products/:id/stock handler. The `quantity` validator is bare
`isInt()` (no bounds), so every `Int` passes; only `operation` can fail
validation. The catch block answers 400 only when the thrown error's message
is exactly 'Insufficient stock'; any other throw (such as the save-time
ValidationError) falls through to 500. On success the mutated product is
saved back into the catalog. -/
def stockEndpointHandler (catalog : List Product) (pid : String) (quantity : Int)
    (operation : String) : StockResp × List Product :=
  if !(operation == "increase" || operation == "decrease") then
    (.validationError, catalog)
  else if !(isValidObjectId pid) then
    (.serverError, catalog)
  else
    match findById catalog pid with
    | none => (.notFound, catalog)
    | some product =>
      match updateStock product quantity operation with
      | .error msg =>
        if msg = "Insufficient stock" then (.insufficientStock, catalog)
        else (.serverError, catalog)
      | .ok p' => (.ok, findByIdAndUpdate catalog pid (fun _ => p'))

/-- One requested line item of POST /api/orders: `productId`/`id` as sent by
the client, quantity, and the optional ad-hoc fields. -/
structure ReqItem where
  productId : Option String
  id : Option String
  name : Option String
  price : Option Int
  quantity : Int
deriving DecidableEq, Repr

/-- A validated order line item snapshot (orderItemSchema fields used by the
workflow; `productId` is Mixed in the schema, hence a plain string). -/
structure OrderItem where
  productId : String
  name : String
  price : Int
  quantity : Int
deriving DecidableEq, Repr

/-- Domain errors of the per-item validation loop of POST /api/orders
(src/routes/orders.js lines 124-154). -/
inductive OrderError
  | invalidProduct
  | productUnavailable
  | insufficientStock
  | minimumOrderNotMet
deriving DecidableEq, Repr

/-- Ad-hoc ("frontend format") item snapshot (src/routes/orders.js
lines 169-185): caller-supplied fields with `item.price || 0` and
`item.name || 'Unknown Product'`; the stored productId is
`item.id || frontend_placeholder`. -/
def adHocItem (fresh : String) (item : ReqItem) : OrderItem :=
  { productId := jsOrStr item.id fresh
    name := jsOrStr item.name "Unknown Product"
    price := jsOrOI item.price 0
    quantity := item.quantity }

/-- Per-item validation of POST /api/orders (src/routes/orders.js
lines 120-185). The catalog branch runs only when `item.productId || item.id`
is truthy and a valid ObjectId. -/
def validateItem (catalog : List Product) (fresh : String) (item : ReqItem) :
    Except OrderError OrderItem :=
  match jsOrS item.productId item.id with
  | some pid =>
    if isValidObjectId pid then
      match findById catalog pid with
      | none => .error .invalidProduct
      | some product =>
        if product.status ≠ ProductStatus.active then .error .productUnavailable
        else if product.stock < item.quantity then .error .insufficientStock
        else if item.quantity < jsOrII product.minOrder 1 then .error .minimumOrderNotMet
        else .ok { productId := product.key
                   name := product.name
                   price := product.price
                   quantity := item.quantity }
    else .ok (adHocItem fresh item)
  | none => .ok (adHocItem fresh item)

/-- The validation loop of POST /api/orders: first failing item aborts the
whole request; otherwise it returns the accumulated subtotal together with the
snapshotted items (each item contributes `price * quantity`, the `itemTotal`
of the source). -/
def validateItems (catalog : List Product) (fresh : String) :
    List ReqItem → Except OrderError (Int × List OrderItem)
  | [] => .ok (0, [])
  | item :: rest =>
    match validateItem catalog fresh item with
    | .error e => .error e
    | .ok oit =>
      match validateItems catalog fresh rest with
      | .error e => .error e
      | .ok (s, its) => .ok (oit.price * oit.quantity + s, oit :: its)

/-- Order status enum (orderSchema in src/server.js). -/
inductive OrderStatus
  | pending
  | confirmed
  | processing
  | shipped
  | delivered
  | cancelled
  | returned
deriving DecidableEq, Repr

/-- Embedded shipping status enum (shippingInfoSchema in src/server.js). -/
inductive ShippingStatus
  | pending
  | shipped
  | delivered
  | returned
deriving DecidableEq, Repr

/-- Order document: the fields of the orderSchema in src/server.js that the
claims touch. `actualDeliverySet` records that the `actualDelivery` timestamp
was stamped. -/
structure Order where
  orderNumber : String
  customerId : String
  items : List OrderItem
  subtotal : Int
  tax : Int
  shippingMethod : String
  shippingCost : Int
  shippingStatus : ShippingStatus
  totalAmount : Int
  orderStatus : OrderStatus
  cancellationReason : Option String
  actualDeliverySet : Bool
  adminNotes : List String
deriving DecidableEq, Repr

/-- Body of POST /api/orders as far as the claims are concerned. -/
structure OrderRequest where
  items : List ReqItem
  shippingMethod : Option String
  shippingCost : Option Int
  paymentMethod : String
deriving DecidableEq, Repr

/-- Payment methods accepted by the POST /api/orders validator. -/
def paymentMethods : List String :=
  ["stripe", "paypal", "bank_transfer", "cash_on_delivery", "cod", "card",
   "jazz_cash", "easypesa"]

/-- Shipping methods accepted by the POST /api/orders validator. -/
def shippingMethods : List String :=
  ["standard", "express", "overnight", "pickup"]

/-- The express-validator checks of POST /api/orders that concern the claims:
non-empty items, each quantity a positive integer, payment method in the fixed
set, optional shipping method/cost in range. -/
def validRequest (req : OrderRequest) : Bool :=
  !req.items.isEmpty &&
  req.items.all (fun it => decide (1 ≤ it.quantity)) &&
  paymentMethods.contains req.paymentMethod &&
  (match req.shippingMethod with
   | some m => shippingMethods.contains m
   | none => true) &&
  (match req.shippingCost with
   | some c => decide (0 ≤ c)
   | none => true)

/-- Decimal rendering of a natural number as JavaScript `Number.toString()`
produces for integral values: the decimal digit characters, most significant
first (this is core's `Nat.toDigits 10`, the renderer behind `Nat.repr`). -/
def decChars (n : Nat) : List Char := Nat.toDigits 10 n

/-- JavaScript String.padStart(len, c) on a character list. -/
def padStartChars (l : List Char) (len : Nat) (c : Char) : List Char :=
  List.replicate (len - l.length) c ++ l

/-- Two-digit zero padding, `toString().padStart(2, '0')`. -/
def pad2 (n : Nat) : List Char := padStartChars (decChars n) 2 '0'

/-- Four-digit zero padding, `toString().padStart(4, '0')`. -/
def pad4 (n : Nat) : List Char := padStartChars (decChars n) 4 '0'

/-- JavaScript String.slice(-2): the last two characters. -/
def sliceLast2 (l : List Char) : List Char := l.drop (l.length - 2)

/-- orderSchema.statics.generateOrderNumber (src/server.js lines 621-628):
`VF` + year.toString().slice(-2) + 2-padded month (already 1-based here, the
source applies getMonth()+1) + 2-padded day + 4-padded random, where `rand`
stands for `Math.floor(Math.random() * 10000)`. -/
def generateOrderNumber (year month day rand : Nat) : String :=
  ⟨'V' :: 'F' :: (sliceLast2 (decChars year) ++ pad2 month ++ pad2 day ++ pad4 rand)⟩

/-- Inline order-number generation of the POST /api/orders mock branch
(src/routes/orders.js line 90): `VF` + ISO date `yymmdd` + 4-padded random.
For four-digit years the ISO slice equals the 2-padded `year % 100`. -/
def mockOrderNumber (year month day rand : Nat) : String :=
  ⟨'V' :: 'F' :: (pad2 (year % 100) ++ pad2 month ++ pad2 day ++ pad4 rand)⟩

/-- Mock order of the DB-disconnected branch of POST /api/orders: the fields
the claims touch (full object also echoes customer info and items). -/
structure MockOrder where
  orderNumber : String
  totalAmount : Int
  orderStatus : OrderStatus
  paymentStatus : String
deriving DecidableEq, Repr

/-- subtotalMock of src/routes/orders.js line 83:
`sum + (it.price || 0) * (it.quantity || 0)`. -/
def mockSubtotal (items : List ReqItem) : Int :=
  items.foldl (fun sum it => sum + jsOrOI it.price 0 * jsOrII it.quantity 0) 0

/-- The mock order built when the datastore is unreachable
(src/routes/orders.js lines 82-107). -/
def mkMockOrder (req : OrderRequest) (year month day rand : Nat) : MockOrder :=
  { orderNumber := mockOrderNumber year month day rand
    totalAmount := mockSubtotal req.items + 0 + jsOrOI req.shippingCost 0
    orderStatus := .pending
    paymentStatus := "pending" }

/-- The post-insert stock loop of POST /api/orders (lines 230-237): for each
validated item whose stored productId is a valid ObjectId,
`$inc: stock by -quantity and analytics.orders by 1`. -/
def applyStockDecrements (catalog : List Product) (items : List OrderItem) :
    List Product :=
  items.foldl
    (fun cat it =>
      if isValidObjectId it.productId then
        findByIdAndUpdate cat it.productId
          (fun p => { p with stock := p.stock - it.quantity
                             ordersCount := p.ordersCount + 1 })
      else cat)
    catalog

/-- The connected path of POST /api/orders after input validation
(src/routes/orders.js lines 116-237): validate and snapshot items, compute
subtotal, tax = 0, totalAmount = subtotal + tax + shipping cost, build and
save the order, then run the stock-decrement loop. -/
def createOrder (catalog : List Product) (userId : String) (req : OrderRequest)
    (orderNum : String) (fresh : String) :
    Except OrderError (Order × List Product) :=
  match validateItems catalog fresh req.items with
  | .error e => .error e
  | .ok (subtotal, vitems) =>
    let tax : Int := 0
    let shippingCost := jsOrOI req.shippingCost 0
    let totalAmount := subtotal + tax + shippingCost
    let order : Order :=
      { orderNumber := orderNum
        customerId := userId
        items := vitems
        subtotal := subtotal
        tax := tax
        shippingMethod := jsOrStr req.shippingMethod "standard"
        shippingCost := shippingCost
        shippingStatus := .pending
        totalAmount := totalAmount
        orderStatus := .pending
        cancellationReason := none
        actualDeliverySet := false
        adminNotes := [] }
    .ok (order, applyStockDecrements catalog vitems)

/-- Responses of POST /api/orders: 400 input validation, 201 mock (DB down),
400 domain error, 201 created. -/
inductive CreateResp
  | validationError
  | mocked (m : MockOrder)
  | domainError (e : OrderError)
  | created (o : Order)
deriving DecidableEq, Repr

/-- POST /api/orders handler (src/routes/orders.js lines 67-269): validate the
body, fall back to a mock order when the datastore is disconnected, otherwise
run the order-creation workflow. `year`/`month`/`day`/`rand` stand for the
clock date and the `Math.random()` draw; `fresh` for the `frontend_...`
placeholder id. -/
def postOrdersHandler (dbConnected : Bool) (catalog : List Product) (userId : String)
    (req : OrderRequest) (year month day rand : Nat) (fresh : String) :
    CreateResp × List Product :=
  if !(validRequest req) then (.validationError, catalog)
  else if !dbConnected then (.mocked (mkMockOrder req year month day rand), catalog)
  else
    match createOrder catalog userId req (generateOrderNumber year month day rand) fresh with
    | .error e => (.domainError e, catalog)
    | .ok (o, cat') => (.created o, cat')

/-- Responses of PATCH /api/orders/:id/cancel (src/routes/orders.js
lines 454-539): 403 wrong owner, 400 non-cancellable status, 400 Invalid ID
(CastError raised by the restore loop on a non-ObjectId item productId), 200. -/
inductive CancelResp
  | accessDenied
  | cannotCancel
  | invalidId
  | ok
deriving DecidableEq, Repr

/-- Outcome of the cancel handler: response, order document, catalog. -/
structure CancelOutcome where
  resp : CancelResp
  order : Order
  catalog : List Product
deriving DecidableEq, Repr

/-- The per-item update of the cancel handler's restore loop
(src/routes/orders.js lines 504-509). The source object literal has two
`$inc` keys; a JavaScript object literal keeps only the last duplicate key,
so the update actually sent is `$inc: analytics.orders by -1` and the stock
increment is dropped. -/
def cancelRestoreUpdate (p : Product) : Product :=
  { p with ordersCount := p.ordersCount - 1 }

/-- The cancel handler's restore loop: items with a valid ObjectId productId
get the (stock-less) update; a non-ObjectId productId makes
findByIdAndUpdate throw a CastError, aborting the loop with the catalog as
mutated so far (`false` flags the throw). -/
def cancelRestoreLoop : List Product → List OrderItem → List Product × Bool
  | cat, [] => (cat, true)
  | cat, it :: rest =>
    if isValidObjectId it.productId then
      cancelRestoreLoop (findByIdAndUpdate cat it.productId cancelRestoreUpdate) rest
    else (cat, false)

/-- PATCH /api/orders/:id/cancel handler (src/routes/orders.js lines 454-539):
owner check, cancellable-status check, set orderStatus to cancelled with the
reason, save, then the restore loop. -/
def cancelOrderHandler (catalog : List Product) (order : Order) (userId : String)
    (reason : Option String) : CancelOutcome :=
  if order.customerId ≠ userId then ⟨.accessDenied, order, catalog⟩
  else if !(order.orderStatus = .pending ∨ order.orderStatus = .confirmed : Bool) then
    ⟨.cannotCancel, order, catalog⟩
  else
    let order' := { order with orderStatus := .cancelled, cancellationReason := reason }
    match cancelRestoreLoop catalog order.items with
    | (cat', true) => ⟨.ok, order', cat'⟩
    | (cat', false) => ⟨.invalidId, order', cat'⟩

/-- orderSchema.methods.updateStatus (src/server.js lines 587-608): set the
new status unconditionally, push an admin note when given, stamp shipping
status on shipped/delivered and the delivery timestamp on delivered. -/
def updateStatus (o : Order) (newStatus : OrderStatus) (note : Option String) : Order :=
  let o1 := { o with orderStatus := newStatus
                     adminNotes := match note with
                       | some n => o.adminNotes ++ [n]
                       | none => o.adminNotes }
  match newStatus with
  | .shipped => { o1 with shippingStatus := .shipped }
  | .delivered => { o1 with shippingStatus := .delivered, actualDeliverySet := true }
  | _ => o1

/-- PATCH /api/orders/:id/status handler (src/routes/orders.js lines 544-606):
after admin auth and the isIn enum validation (the `OrderStatus` type), the
found order's status is updated with no check of the current status. -/
def statusUpdateHandler (order : Order) (newStatus : OrderStatus) (note : Option String) :
    Order :=
  updateStatus order newStatus note

/-- Sum of `price * quantity` over snapshotted items. -/
def sumItems (items : List OrderItem) : Int :=
  (items.map (fun it => it.price * it.quantity)).sum

/-- Total quantity the decrement loop charges against a given product id. -/
def orderedQty (items : List OrderItem) (pid : String) : Int :=
  ((items.filter (fun it => isValidObjectId it.productId && it.productId == pid)).map
    OrderItem.quantity).sum

/-- Sample catalog ObjectId (24 hex characters). -/
def sampleKey : String := "aaaaaaaaaaaaaaaaaaaaaaaa"

/-- Sample catalog product used by the concrete evaluations. -/
def sampleProduct : Product :=
  { key := sampleKey
    name := "Premium Wheat Flour"
    price := 1000
    stock := 2
    status := .active
    minOrder := 1
    ordersCount := 1 }

/-- Sample pending order owning one catalog-backed line item of quantity 3. -/
def sampleOrder : Order :=
  { orderNumber := "VF2510120001"
    customerId := "user1"
    items := [{ productId := sampleKey
                name := "Premium Wheat Flour"
                price := 1000
                quantity := 3 }]
    subtotal := 3000
    tax := 0
    shippingMethod := "standard"
    shippingCost := 300
    shippingStatus := .pending
    totalAmount := 3300
    orderStatus := .pending
    cancellationReason := none
    actualDeliverySet := false
    adminNotes := [] }

/-- Sample discontinued product with positive stock. -/
def discontinuedProduct : Product :=
  { key := "bbbbbbbbbbbbbbbbbbbbbbbb"
    name := "Retired Item"
    price := 500
    stock := 5
    status := .discontinued
    minOrder := 1
    ordersCount := 0 }

/-- Sample delivered (terminal) order with no items. -/
def deliveredOrder : Order :=
  { orderNumber := "VF2510120002"
    customerId := "user2"
    items := []
    subtotal := 0
    tax := 0
    shippingMethod := "standard"
    shippingCost := 0
    shippingStatus := .delivered
    totalAmount := 0
    orderStatus := .delivered
    cancellationReason := none
    actualDeliverySet := true
    adminNotes := [] }

/-- Sample generated frontend placeholder id (not a valid ObjectId). -/
def freshSample : String := "frontend_1760227200000_0.5"

/-- Request buying 2 units of the sample product with shipping cost 300. -/
def okReq : OrderRequest :=
  { items := [{ productId := some sampleKey
                id := none
                name := none
                price := none
                quantity := 2 }]
    shippingMethod := some "standard"
    shippingCost := some 300
    paymentMethod := "cod" }

/-- Item requesting 3 units of the sample product (stock is only 2). -/
def bad3Item : ReqItem :=
  { productId := some sampleKey
    id := none
    name := none
    price := none
    quantity := 3 }

/-- Request whose only item exceeds the sample product's stock. -/
def badReq : OrderRequest :=
  { items := [bad3Item]
    shippingMethod := none
    shippingCost := none
    paymentMethod := "cod" }

/-- The order `createOrder` produces for `okReq` against the sample catalog. -/
def okReqOrder : Order :=
  { orderNumber := "VF2510120003"
    customerId := "user1"
    items := [{ productId := sampleKey
                name := "Premium Wheat Flour"
                price := 1000
                quantity := 2 }]
    subtotal := 2000
    tax := 0
    shippingMethod := "standard"
    shippingCost := 300
    shippingStatus := .pending
    totalAmount := 2300
    orderStatus := .pending
    cancellationReason := none
    actualDeliverySet := false
    adminNotes := [] }

/-- The catalog after `okReq` is accepted: stock 2 − 2 = 0, orders counter 2. -/
def okReqCatalog : List Product :=
  [{ sampleProduct with stock := 0, ordersCount := 2 }]

/-- Item whose `productId` is an invalid ObjectId but whose `id` is a valid
one: it takes the ad-hoc branch yet its snapshot stores the valid id. -/
def mixedIdItem : ReqItem :=
  { productId := some "zz"
    id := some sampleKey
    name := some "Custom Mix"
    price := some 7
    quantity := 2 }

/-- Plain ad-hoc item with no product reference at all. -/
def adhocOnlyItem : ReqItem :=
  { productId := none
    id := none
    name := none
    price := none
    quantity := 4 }

/-- Numeric value of a decimal digit character. -/
def charVal (c : Char) : Nat := c.toNat - 48

/-- Numeric value of a decimal digit string (most significant first). -/
def listVal (l : List Char) : Nat := l.foldl (fun a c => a * 10 + charVal c) 0

/-! ## Basic lemmas about the embedded operations -/

theorem jsOrII_zero (v : Int) : jsOrII v 0 = v := by
  unfold jsOrII
  split
  · omega
  · rfl

theorem recomputeStockStatus_key (p : Product) : (recomputeStockStatus p).key = p.key := by
  unfold recomputeStockStatus
  split
  · rfl
  · split <;> rfl

theorem recomputeStockStatus_stock (p : Product) :
    (recomputeStockStatus p).stock = p.stock := by
  unfold recomputeStockStatus
  split
  · rfl
  · split <;> rfl

theorem recomputeStockStatus_zero (p : Product) (h : p.stock = 0) :
    (recomputeStockStatus p).status = .out_of_stock := by
  unfold recomputeStockStatus
  rw [if_pos h]

theorem recomputeStockStatus_oos (p : Product) (h : p.stock ≠ 0)
    (h2 : p.status = .out_of_stock) : (recomputeStockStatus p).status = .active := by
  unfold recomputeStockStatus
  rw [if_neg h, if_pos h2]

theorem recomputeStockStatus_other (p : Product) (h : p.stock ≠ 0)
    (h2 : p.status ≠ .out_of_stock) : (recomputeStockStatus p).status = p.status := by
  unfold recomputeStockStatus
  rw [if_neg h, if_neg h2]

theorem productSave_ok (p p' : Product) (h : productSave p = .ok p') : p' = p := by
  unfold productSave at h
  split at h
  · cases h
  · cases h
    rfl

theorem productSave_of_nonneg (p : Product) (h : 0 ≤ p.stock) :
    productSave p = .ok p := by
  unfold productSave
  rw [if_neg (by omega)]

theorem updateStock_decrease_ok (p : Product) (q : Int) (h : ¬ p.stock < q) :
    updateStock p q "decrease" =
      .ok (recomputeStockStatus { p with stock := p.stock - q }) := by
  unfold updateStock
  rw [if_pos rfl, if_neg h]
  exact productSave_of_nonneg _ (by rw [recomputeStockStatus_stock]; dsimp only; omega)

theorem updateStock_decrease_err (p : Product) (q : Int) (h : p.stock < q) :
    updateStock p q "decrease" = .error "Insufficient stock" := by
  unfold updateStock
  rw [if_pos rfl, if_pos h]

theorem updateStock_increase (p : Product) (q : Int) (h : 0 ≤ p.stock + q) :
    updateStock p q "increase" =
      .ok (recomputeStockStatus { p with stock := p.stock + q }) := by
  unfold updateStock
  rw [if_neg (by decide), if_pos rfl]
  exact productSave_of_nonneg _ (by rw [recomputeStockStatus_stock]; dsimp only; omega)

theorem updateStock_increase_err (p : Product) (q : Int) (h : p.stock + q < 0) :
    updateStock p q "increase" = .error "ValidationError" := by
  unfold updateStock
  rw [if_neg (by decide), if_pos rfl]
  unfold productSave
  rw [if_pos (by rw [recomputeStockStatus_stock]; dsimp only; omega)]

theorem updateStock_ok_key (p : Product) (q : Int) (op : String) (p' : Product)
    (h : updateStock p q op = .ok p') : p'.key = p.key := by
  unfold updateStock at h
  split at h
  · split at h
    · cases h
    · rw [productSave_ok _ _ h]
      exact recomputeStockStatus_key _
  · split at h
    · rw [productSave_ok _ _ h]
      exact recomputeStockStatus_key _
    · rw [productSave_ok _ _ h]
      exact recomputeStockStatus_key _

theorem findById_cons_pos (p : Product) (rest : List Product) (pid : String)
    (h : p.key = pid) : findById (p :: rest) pid = some p := by
  unfold findById
  rw [List.find?_cons_of_pos]
  exact beq_iff_eq.mpr h

theorem findById_cons_neg (p : Product) (rest : List Product) (pid : String)
    (h : ¬ p.key = pid) : findById (p :: rest) pid = findById rest pid := by
  unfold findById
  rw [List.find?_cons_of_neg]
  simpa using h

theorem findById_key (catalog : List Product) (pid : String) (p : Product)
    (h : findById catalog pid = some p) : p.key = pid := by
  unfold findById at h
  have := List.find?_some h
  exact beq_iff_eq.mp this

/-- Rewriting findById after findByIdAndUpdate at the same id, for a
key-preserving update. -/
theorem findById_update_self (cat : List Product) (pid : String) (f : Product → Product)
    (hk : ∀ p : Product, (f p).key = p.key) :
    findById (findByIdAndUpdate cat pid f) pid = (findById cat pid).map f := by
  induction cat with
  | nil => rfl
  | cons p rest ih =>
    by_cases h : p.key = pid
    · have hup : findByIdAndUpdate (p :: rest) pid f = f p :: findByIdAndUpdate rest pid f := by
        unfold findByIdAndUpdate
        rw [List.map_cons, if_pos (beq_iff_eq.mpr h)]
      rw [hup, findById_cons_pos _ _ _ (by rw [hk]; exact h), findById_cons_pos _ _ _ h]
      rfl
    · have hup : findByIdAndUpdate (p :: rest) pid f = p :: findByIdAndUpdate rest pid f := by
        unfold findByIdAndUpdate
        rw [List.map_cons, if_neg (by simpa using h)]
      rw [hup, findById_cons_neg _ _ _ h, findById_cons_neg _ _ _ h, ih]

/-- Replacing the found document by a same-key document is found back. -/
theorem findById_update_const (cat : List Product) (pid : String)
    (product p' : Product) (hf : findById cat pid = some product)
    (hk : p'.key = product.key) :
    findById (findByIdAndUpdate cat pid (fun _ => p')) pid = some p' := by
  induction cat with
  | nil => cases hf
  | cons p rest ih =>
    by_cases h : p.key = pid
    · have hup : findByIdAndUpdate (p :: rest) pid (fun _ => p') =
          p' :: findByIdAndUpdate rest pid (fun _ => p') := by
        unfold findByIdAndUpdate
        rw [List.map_cons, if_pos (beq_iff_eq.mpr h)]
      rw [findById_cons_pos _ _ _ h] at hf
      cases hf
      rw [hup, findById_cons_pos]
      rw [hk]
      exact h
    · have hup : findByIdAndUpdate (p :: rest) pid (fun _ => p') =
          p :: findByIdAndUpdate rest pid (fun _ => p') := by
        unfold findByIdAndUpdate
        rw [List.map_cons, if_neg (by simpa using h)]
      rw [findById_cons_neg _ _ _ h] at hf
      rw [hup, findById_cons_neg _ _ _ h]
      exact ih hf

/-! ## Claim theorems and witnesses -/

/-- C1: cancelling a pending order owned by the caller does transition it to
`cancelled`, but the stock of its catalog-backed line item is NOT restored
(the duplicate `$inc` key in the update object drops the stock increment and
only `analytics.orders` is decremented): with stock 2 and ordered quantity 3,
the post-cancel stock is still 2 instead of 5. -/
theorem c1_cancel_does_not_restore_stock :
    (cancelOrderHandler [sampleProduct] sampleOrder "user1" none).resp = CancelResp.ok ∧
    (cancelOrderHandler [sampleProduct] sampleOrder "user1" none).order.orderStatus =
      OrderStatus.cancelled ∧
    stockOf (cancelOrderHandler [sampleProduct] sampleOrder "user1" none).catalog
      sampleKey = 2 ∧
    (findById (cancelOrderHandler [sampleProduct] sampleOrder "user1" none).catalog
      sampleKey).map Product.ordersCount = some 0 := by
  refine ⟨?_, ?_, ?_, ?_⟩ <;> decide

/-- C4 counterexample: a stock adjustment that drives stock to 0 overwrites an
administrator-set `discontinued` status with `out_of_stock`, so the status is
not left unchanged as the claim states. -/
theorem c4_cex_discontinued_overwritten :
    discontinuedProduct.status = ProductStatus.discontinued ∧
    (updateStock discontinuedProduct 5 "decrease").toOption.map Product.status =
      some ProductStatus.out_of_stock := by
  refine ⟨rfl, ?_⟩
  decide

/-- C4 amended: after a successful updateStock, stock 0 forces status
out_of_stock regardless of the previous status (including inactive and
discontinued); a nonzero resulting stock turns a previous out_of_stock into
active; and inactive/discontinued are preserved exactly when the resulting
stock is nonzero. -/
theorem c4_status_recompute (p : Product) (q : Int) (op : String) (p' : Product)
    (h : updateStock p q op = .ok p') :
    (p'.stock = 0 → p'.status = ProductStatus.out_of_stock) ∧
    (p'.stock ≠ 0 → p.status = ProductStatus.out_of_stock →
      p'.status = ProductStatus.active) ∧
    (p'.stock ≠ 0 →
      (p.status = ProductStatus.inactive ∨ p.status = ProductStatus.discontinued) →
      p'.status = p.status) := by
  have main : ∀ p₀ : Product, p₀.status = p.status →
      p' = recomputeStockStatus p₀ →
      (p'.stock = 0 → p'.status = ProductStatus.out_of_stock) ∧
      (p'.stock ≠ 0 → p.status = ProductStatus.out_of_stock →
        p'.status = ProductStatus.active) ∧
      (p'.stock ≠ 0 →
        (p.status = ProductStatus.inactive ∨ p.status = ProductStatus.discontinued) →
        p'.status = p.status) := by
    intro p₀ hst hp'
    have hstock : p'.stock = p₀.stock := by rw [hp', recomputeStockStatus_stock]
    refine ⟨?_, ?_, ?_⟩
    · intro h0
      rw [hp']
      exact recomputeStockStatus_zero _ (by rw [← hstock]; exact h0)
    · intro hne hoos
      rw [hp']
      exact recomputeStockStatus_oos _ (by rw [← hstock]; exact hne) (by rw [hst]; exact hoos)
    · intro hne hio
      rw [hp', recomputeStockStatus_other _ (by rw [← hstock]; exact hne)
        (by rw [hst]; rcases hio with h1 | h1 <;> rw [h1] <;> simp), hst]
  unfold updateStock at h
  split at h
  · split at h
    · cases h
    · exact main { p with stock := p.stock - q } rfl (productSave_ok _ _ h)
  · split at h
    · exact main { p with stock := p.stock + q } rfl (productSave_ok _ _ h)
    · exact main p rfl (productSave_ok _ _ h)

/-- C4 witness: the amended recompute facts evaluated on a concrete decrease
of the sample product from stock 2 to 0. -/
theorem c4_witness :
    (updateStock sampleProduct 2 "decrease" =
      .ok { sampleProduct with stock := 0, status := .out_of_stock }) ∧
    ({ sampleProduct with stock := 0, status := ProductStatus.out_of_stock }.status =
      ProductStatus.out_of_stock) := by
  have h : updateStock sampleProduct 2 "decrease" =
      .ok { sampleProduct with stock := 0, status := .out_of_stock } := by rfl
  exact ⟨h, (c4_status_recompute sampleProduct 2 "decrease" _ h).1 rfl⟩

/-- C5 counterexample: the admin status-update endpoint moves an order out of
the terminal state `delivered` back to `pending`, so the claimed lifecycle
restriction does not hold. -/
theorem c5_cex_terminal_escape :
    deliveredOrder.orderStatus = OrderStatus.delivered ∧
    (statusUpdateHandler deliveredOrder OrderStatus.pending none).orderStatus =
      OrderStatus.pending := by
  exact ⟨rfl, rfl⟩

/-- C5 amended: the customer cancellation endpoint enforces
{pending, confirmed} → cancelled and rejects every other source state without
mutation, but the admin status update sets orderStatus to exactly the
requested enumerated value from ANY current state, with no lifecycle
restriction (terminal states included). -/
theorem c5_status_transitions (o : Order) (s : OrderStatus) (note : Option String)
    (cat : List Product) (uid : String) (reason : Option String) :
    ((statusUpdateHandler o s note).orderStatus = s) ∧
    (o.customerId = uid → o.orderStatus ≠ OrderStatus.pending →
      o.orderStatus ≠ OrderStatus.confirmed →
      cancelOrderHandler cat o uid reason = ⟨.cannotCancel, o, cat⟩) ∧
    (o.customerId = uid →
      (o.orderStatus = OrderStatus.pending ∨ o.orderStatus = OrderStatus.confirmed) →
      (cancelOrderHandler cat o uid reason).order.orderStatus = OrderStatus.cancelled) := by
  refine ⟨?_, ?_, ?_⟩
  · unfold statusUpdateHandler updateStatus
    cases s <;> rfl
  · intro howner hp hc
    unfold cancelOrderHandler
    rw [if_neg (by rw [howner]; exact fun h => h rfl)]
    rw [if_pos]
    simp only [Bool.not_eq_true']
    exact decide_eq_false (by rintro (h | h) <;> [exact hp h; exact hc h])
  · intro howner hpc
    unfold cancelOrderHandler
    rw [if_neg (by rw [howner]; exact fun h => h rfl)]
    rw [if_neg (by simp only [Bool.not_eq_true', Bool.not_eq_false]; exact decide_eq_true hpc)]
    rcases hloop : cancelRestoreLoop cat o.items with ⟨cat', b⟩
    cases b <;> simp

/-- C5 witness: concrete instances of the three amended facts, using the
delivered sample order for the admin update and the pending sample order for
both cancellation outcomes. -/
theorem c5_witness :
    (statusUpdateHandler deliveredOrder OrderStatus.confirmed none).orderStatus =
      OrderStatus.confirmed ∧
    cancelOrderHandler [] deliveredOrder "user2" none =
      ⟨.cannotCancel, deliveredOrder, []⟩ ∧
    (cancelOrderHandler [sampleProduct] sampleOrder "user1" none).order.orderStatus =
      OrderStatus.cancelled := by
  refine ⟨?_, ?_, ?_⟩
  · exact (c5_status_transitions deliveredOrder .confirmed none [] "user2" none).1
  · exact (c5_status_transitions deliveredOrder .confirmed none [] "user2" none).2.1
      rfl (by decide) (by decide)
  · exact (c5_status_transitions sampleOrder .confirmed none [sampleProduct] "user1"
      none).2.2 rfl (Or.inl rfl)

/-- C6 counterexample: the increase operation does not always succeed — with
stock 2 and quantity −5 (reachable through the endpoint's bare integer
validator) the resulting stock −3 violates the schema's min-0 bound, so the
save rejects with a ValidationError and the endpoint answers 500, refuting
the claim's 'increase always succeeds' conjunct. -/
theorem c6_cex_increase_negative_fails :
    sampleProduct.stock = 2 ∧
    updateStock sampleProduct (-5) "increase" = .error "ValidationError" ∧
    stockEndpointHandler [sampleProduct] sampleKey (-5) "increase" =
      (.serverError, [sampleProduct]) := by
  refine ⟨rfl, by rfl, by decide⟩

/-- C6 amended: the decrease operation fails with the insufficient-stock
error exactly when current stock < quantity, leaving stock unchanged on
failure (surfaced by the admin endpoint as the 400 Insufficient stock
response with an untouched catalog), and otherwise sets stock to
stock − quantity (then ≥ 0, so the save's min-0 bound always passes); the
increase operation sets stock to stock + quantity and succeeds exactly when
the resulting stock is nonnegative — in particular for every nonnegative
quantity — while an increase whose resulting stock would be negative is
rejected at save time by the schema's min-0 stock bound, which the endpoint
surfaces as a 500 with an untouched catalog. -/
theorem c6_stock_ledger_amended (p : Product) (q : Int) (catalog : List Product)
    (pid : String) (product : Product) (hv : isValidObjectId pid = true)
    (hf : findById catalog pid = some product) :
    ((updateStock p q "decrease" = .error "Insufficient stock") ↔ p.stock < q) ∧
    (¬ p.stock < q → ∃ p' : Product, updateStock p q "decrease" = .ok p' ∧
      p'.stock = p.stock - q) ∧
    (0 ≤ p.stock + q → ∃ p' : Product, updateStock p q "increase" = .ok p' ∧
      p'.stock = p.stock + q) ∧
    (p.stock + q < 0 → updateStock p q "increase" = .error "ValidationError") ∧
    (product.stock < q →
      stockEndpointHandler catalog pid q "decrease" = (.insufficientStock, catalog)) ∧
    (product.stock + q < 0 →
      stockEndpointHandler catalog pid q "increase" = (.serverError, catalog)) := by
  refine ⟨⟨?_, ?_⟩, ?_, ?_, ?_, ?_, ?_⟩
  · intro h
    by_contra hn
    rw [updateStock_decrease_ok p q hn] at h
    cases h
  · intro h
    exact updateStock_decrease_err p q h
  · intro h
    exact ⟨_, updateStock_decrease_ok p q h, by rw [recomputeStockStatus_stock]⟩
  · intro h
    exact ⟨_, updateStock_increase p q h, by rw [recomputeStockStatus_stock]⟩
  · intro h
    exact updateStock_increase_err p q h
  · intro h
    unfold stockEndpointHandler
    rw [if_neg (by decide), if_neg (by rw [hv]; decide)]
    simp only [hf, updateStock_decrease_err product q h]
    rw [if_pos trivial]
  · intro h
    unfold stockEndpointHandler
    rw [if_neg (by decide), if_neg (by rw [hv]; decide)]
    simp only [hf, updateStock_increase_err product q h]
    rw [if_neg (by decide)]

/-- C6 witness: the amended ledger facts evaluated with the sample product
(stock 2): decrease by 3 fails and the endpoint answers Insufficient stock
leaving the catalog unchanged; decrease by 1 and increase by 3 succeed; and
increase by −5 fails the save validation, surfaced as a server error with an
untouched catalog. -/
theorem c6_witness :
    (updateStock sampleProduct 3 "decrease" = .error "Insufficient stock") ∧
    (∃ p' : Product, updateStock sampleProduct 1 "decrease" = .ok p' ∧ p'.stock = 1) ∧
    (∃ p' : Product, updateStock sampleProduct 3 "increase" = .ok p' ∧ p'.stock = 5) ∧
    (updateStock sampleProduct (-5) "increase" = .error "ValidationError") ∧
    stockEndpointHandler [sampleProduct] sampleKey 3 "decrease" =
      (.insufficientStock, [sampleProduct]) ∧
    stockEndpointHandler [sampleProduct] sampleKey (-5) "increase" =
      (.serverError, [sampleProduct]) := by
  have h3 := c6_stock_ledger_amended sampleProduct 3 [sampleProduct] sampleKey
    sampleProduct (by decide) (by decide)
  have h1 := c6_stock_ledger_amended sampleProduct 1 [sampleProduct] sampleKey
    sampleProduct (by decide) (by decide)
  have hm5 := c6_stock_ledger_amended sampleProduct (-5) [sampleProduct] sampleKey
    sampleProduct (by decide) (by decide)
  refine ⟨h3.1.mpr (by decide), ?_, ?_, hm5.2.2.2.1 (by decide),
    h3.2.2.2.2.1 (by decide), hm5.2.2.2.2.2 (by decide)⟩
  · rcases h1.2.1 (by decide) with ⟨p', hp', hs⟩
    exact ⟨p', hp', by rw [hs]; decide⟩
  · rcases h3.2.2.1 (by decide) with ⟨p', hp', hs⟩
    exact ⟨p', hp', by rw [hs]; decide⟩

/-- C9: the admin stock endpoint validates quantity only with a bare integer
check, so a negative quantity is accepted; the decrease branch's guard
`stock < quantity` is false for a nonnegative stock and a negative quantity,
so the operation succeeds and sets stock to stock − quantity, strictly
increasing it. -/
theorem c9_negative_decrease (catalog : List Product) (pid : String) (product : Product)
    (q : Int) (hv : isValidObjectId pid = true) (hf : findById catalog pid = some product)
    (hs : 0 ≤ product.stock) (hq : q < 0) :
    (stockEndpointHandler catalog pid q "decrease").1 = StockResp.ok ∧
    stockOf (stockEndpointHandler catalog pid q "decrease").2 pid = product.stock - q ∧
    product.stock < product.stock - q := by
  have hguard : ¬ product.stock < q := by omega
  have hok := updateStock_decrease_ok product q hguard
  have hkey : (recomputeStockStatus { product with stock := product.stock - q }).key =
      product.key := recomputeStockStatus_key _
  have hhandler : stockEndpointHandler catalog pid q "decrease" =
      (.ok, findByIdAndUpdate catalog pid
        (fun _ => recomputeStockStatus { product with stock := product.stock - q })) := by
    unfold stockEndpointHandler
    rw [if_neg (by decide), if_neg (by rw [hv]; decide)]
    simp only [hf, hok]
  refine ⟨by rw [hhandler], ?_, by omega⟩
  rw [hhandler]
  unfold stockOf
  rw [findById_update_const catalog pid product _ hf hkey]
  simp [recomputeStockStatus_stock]

/-- C9 witness: decreasing the sample product (stock 2) by −5 through the
endpoint succeeds and raises the stock to 7. -/
theorem c9_witness :
    (stockEndpointHandler [sampleProduct] sampleKey (-5) "decrease").1 = StockResp.ok ∧
    stockOf (stockEndpointHandler [sampleProduct] sampleKey (-5) "decrease").2
      sampleKey = 7 ∧
    sampleProduct.stock < 7 := by
  have h := c9_negative_decrease [sampleProduct] sampleKey sampleProduct (-5)
    (by decide) (by decide) (by decide) (by decide)
  exact ⟨h.1, by rw [h.2.1]; decide, by decide⟩

theorem findById_update_other (cat : List Product) (qid pid : String)
    (f : Product → Product) (hk : ∀ p : Product, (f p).key = p.key) (hne : qid ≠ pid) :
    findById (findByIdAndUpdate cat qid f) pid = findById cat pid := by
  induction cat with
  | nil => rfl
  | cons p rest ih =>
    by_cases h : p.key = qid
    · have hup : findByIdAndUpdate (p :: rest) qid f = f p :: findByIdAndUpdate rest qid f := by
        unfold findByIdAndUpdate
        rw [List.map_cons, if_pos (beq_iff_eq.mpr h)]
      have hn : ¬ p.key = pid := by rw [h]; exact hne
      rw [hup, findById_cons_neg _ _ _ (by rw [hk]; exact hn), findById_cons_neg _ _ _ hn, ih]
    · have hup : findByIdAndUpdate (p :: rest) qid f = p :: findByIdAndUpdate rest qid f := by
        unfold findByIdAndUpdate
        rw [List.map_cons, if_neg (by simpa using h)]
      by_cases h2 : p.key = pid
      · rw [hup, findById_cons_pos _ _ _ h2, findById_cons_pos _ _ _ h2]
      · rw [hup, findById_cons_neg _ _ _ h2, findById_cons_neg _ _ _ h2, ih]

/-- The per-item decrement of the post-insert loop preserves keys. -/
theorem decrementUpdate_key (q : Int) (p : Product) :
    (({ p with stock := p.stock - q, ordersCount := p.ordersCount + 1 } : Product)).key =
      p.key := rfl

/-- Stock accounting of the post-insert decrement loop: a product present in
the catalog ends with its stock lowered by the total quantity of the valid
items that reference it. -/
theorem stockOf_applyStockDecrements (items : List OrderItem) (cat : List Product)
    (pid : String) (product : Product) (hf : findById cat pid = some product) :
    stockOf (applyStockDecrements cat items) pid = product.stock - orderedQty items pid := by
  induction items generalizing cat product with
  | nil =>
    unfold applyStockDecrements orderedQty stockOf
    rw [List.foldl_nil, hf]
    simp
  | cons it rest ih =>
    have hfold : applyStockDecrements cat (it :: rest) =
        applyStockDecrements
          (if isValidObjectId it.productId then
            findByIdAndUpdate cat it.productId
              (fun p => { p with stock := p.stock - it.quantity
                                 ordersCount := p.ordersCount + 1 })
          else cat) rest := by
      unfold applyStockDecrements
      rw [List.foldl_cons]
    by_cases hv : isValidObjectId it.productId
    · by_cases heq : it.productId = pid
      · have hupd : findById (findByIdAndUpdate cat it.productId
            (fun p => { p with stock := p.stock - it.quantity
                               ordersCount := p.ordersCount + 1 })) pid =
            some { product with stock := product.stock - it.quantity
                                ordersCount := product.ordersCount + 1 } := by
          rw [heq, findById_update_self cat pid
            (fun p => { p with stock := p.stock - it.quantity
                               ordersCount := p.ordersCount + 1 }) (fun p => rfl), hf]
          rfl
        rw [hfold, if_pos hv, ih _ _ hupd]
        have hq : orderedQty (it :: rest) pid = it.quantity + orderedQty rest pid := by
          unfold orderedQty
          rw [List.filter_cons_of_pos (by rw [hv, heq]; simp), List.map_cons, List.sum_cons]
        rw [hq]
        dsimp only
        omega
      · have hupd : findById (findByIdAndUpdate cat it.productId
            (fun p => { p with stock := p.stock - it.quantity
                               ordersCount := p.ordersCount + 1 })) pid =
            some product := by
          rw [findById_update_other cat it.productId pid
            (fun p => { p with stock := p.stock - it.quantity
                               ordersCount := p.ordersCount + 1 }) (fun p => rfl) heq, hf]
        rw [hfold, if_pos hv, ih _ _ hupd]
        have hq : orderedQty (it :: rest) pid = orderedQty rest pid := by
          unfold orderedQty
          rw [List.filter_cons_of_neg]
          simp [heq]
        rw [hq]
    · rw [hfold, if_neg hv, ih _ _ hf]
      have hq : orderedQty (it :: rest) pid = orderedQty rest pid := by
        unfold orderedQty
        rw [List.filter_cons_of_neg]
        simp [hv]
      rw [hq]

/-- Splitting the validation loop at a list concatenation. -/
theorem validateItems_append (catalog : List Product) (fresh : String)
    (l₁ l₂ : List ReqItem) :
    validateItems catalog fresh (l₁ ++ l₂) =
      match validateItems catalog fresh l₁ with
      | .error e => .error e
      | .ok (s₁, i₁) =>
        match validateItems catalog fresh l₂ with
        | .error e => .error e
        | .ok (s₂, i₂) => .ok (s₁ + s₂, i₁ ++ i₂) := by
  induction l₁ with
  | nil =>
    rcases h : validateItems catalog fresh l₂ with e | ⟨s₂, i₂⟩ <;>
      simp [validateItems, h]
  | cons item rest ih =>
    show validateItems catalog fresh (item :: (rest ++ l₂)) = _
    rcases hi : validateItem catalog fresh item with e | oit
    · simp only [validateItems, hi]
    · rcases h1 : validateItems catalog fresh rest with e | ⟨s₁, i₁⟩
      · simp only [validateItems, hi, ih, h1]
      · rcases h2 : validateItems catalog fresh l₂ with e | ⟨s₂, i₂⟩
        · simp only [validateItems, hi, ih, h1, h2]
        · simp only [validateItems, hi, ih, h1, h2]
          rw [← Int.add_assoc, List.cons_append]

/-- The accumulated subtotal of a successful validation loop equals the sum of
`price * quantity` over the snapshotted items. -/
theorem validateItems_subtotal (catalog : List Product) (fresh : String)
    (l : List ReqItem) (s : Int) (its : List OrderItem)
    (h : validateItems catalog fresh l = .ok (s, its)) : s = sumItems its := by
  induction l generalizing s its with
  | nil =>
    unfold validateItems at h
    cases h
    rfl
  | cons item rest ih =>
    unfold validateItems at h
    rcases hi : validateItem catalog fresh item with e | oit <;> rw [hi] at h
    · cases h
    · rcases h1 : validateItems catalog fresh rest with e | ⟨s₁, i₁⟩ <;> rw [h1] at h
      · cases h
      · cases h
        rw [ih s₁ i₁ h1]
        unfold sumItems
        rw [List.map_cons, List.sum_cons]

/-- A catalog-resolved item with insufficient stock fails validation with the
insufficient-stock domain error. -/
theorem validateItem_insufficient (catalog : List Product) (fresh : String)
    (item : ReqItem) (pid : String) (product : Product)
    (href : jsOrS item.productId item.id = some pid)
    (hvld : isValidObjectId pid = true)
    (hf : findById catalog pid = some product)
    (hact : product.status = ProductStatus.active)
    (hstock : product.stock < item.quantity) :
    validateItem catalog fresh item = .error .insufficientStock := by
  unfold validateItem
  rw [href]
  simp only [hvld, if_true, hf]
  rw [if_neg (by rw [hact]; exact fun hc => hc rfl), if_pos hstock]

/-- C2: an order request containing a catalog-resolved item whose quantity
exceeds the product's current stock is rejected whole with the
insufficient-stock domain error and an unchanged catalog (no order persisted,
no stock mutated); and when a request is accepted, each catalog product's
stock ends decremented by exactly the total quantity the order's items charge
against it. -/
theorem c2_stock_check_and_decrement (catalog : List Product) (userId : String)
    (req : OrderRequest) (year month day rand : Nat) (fresh : String) :
    (∀ (pre : List ReqItem) (item : ReqItem) (rest : List ReqItem) (pid : String)
       (product : Product) (s₀ : Int) (i₀ : List OrderItem),
       req.items = pre ++ item :: rest →
       validRequest req = true →
       validateItems catalog fresh pre = .ok (s₀, i₀) →
       jsOrS item.productId item.id = some pid →
       isValidObjectId pid = true →
       findById catalog pid = some product →
       product.status = ProductStatus.active →
       product.stock < item.quantity →
       postOrdersHandler true catalog userId req year month day rand fresh =
         (.domainError .insufficientStock, catalog)) ∧
    (∀ (o : Order) (cat' : List Product) (pid : String) (product : Product),
       postOrdersHandler true catalog userId req year month day rand fresh =
         (.created o, cat') →
       findById catalog pid = some product →
       stockOf cat' pid = product.stock - orderedQty o.items pid) := by
  constructor
  · intro pre item rest pid product s₀ i₀ hitems hreq hpre href hvld hf hact hstock
    have hitem := validateItem_insufficient catalog fresh item pid product href hvld hf
      hact hstock
    have hcons : validateItems catalog fresh (item :: rest) = .error .insufficientStock := by
      unfold validateItems
      rw [hitem]
    have hall : validateItems catalog fresh req.items = .error .insufficientStock := by
      rw [hitems, validateItems_append]
      simp only [hpre, hcons]
    have hco : createOrder catalog userId req
        (generateOrderNumber year month day rand) fresh = .error .insufficientStock := by
      unfold createOrder
      simp only [hall]
    unfold postOrdersHandler
    rw [if_neg (by rw [hreq]; decide), if_neg (by decide)]
    simp only [hco]
  · intro o cat' pid product h hf
    unfold postOrdersHandler at h
    rcases hvr : validRequest req with _ | _
    · rw [if_pos (by rw [hvr]; rfl)] at h
      cases h
    · rw [if_neg (by rw [hvr]; decide), if_neg (by decide)] at h
      rcases hco : createOrder catalog userId req
          (generateOrderNumber year month day rand) fresh with e | ⟨o₀, cat₀⟩ <;>
        simp only [hco] at h
      · cases h
      · have ho : CreateResp.created o₀ = CreateResp.created o := congrArg Prod.fst h
        have hcat : cat₀ = cat' := congrArg Prod.snd h
        have ho' : o₀ = o := by
          cases ho
          rfl
        unfold createOrder at hco
        rcases hval : validateItems catalog fresh req.items with e | ⟨s, vitems⟩ <;>
          simp only [hval] at hco
        · cases hco
        · cases hco
          rw [← hcat, ← ho']
          exact stockOf_applyStockDecrements vitems catalog pid product hf

/-- C2 witness: against the sample catalog (stock 2), requesting 3 units is
rejected with the insufficient-stock error and an unchanged catalog, while
the accepted 2-unit request ends with stock 2 − 2 = 0. -/
theorem c2_witness :
    postOrdersHandler true [sampleProduct] "user1" badReq 2025 10 12 3 freshSample =
      (.domainError .insufficientStock, [sampleProduct]) ∧
    stockOf okReqCatalog sampleKey =
      sampleProduct.stock - orderedQty okReqOrder.items sampleKey := by
  constructor
  · exact (c2_stock_check_and_decrement [sampleProduct] "user1" badReq 2025 10 12 3
      freshSample).1 [] bad3Item [] sampleKey sampleProduct 0 [] rfl (by decide) rfl rfl
      (by decide) (by decide) rfl (by decide)
  · exact (c2_stock_check_and_decrement [sampleProduct] "user1" okReq 2025 10 12 3
      freshSample).2 okReqOrder okReqCatalog sampleKey sampleProduct (by decide) (by decide)

/-- C3: every accepted order is persisted with subtotal equal to the sum of
unit price × quantity over its snapshotted items, tax 0, and totalAmount =
subtotal + tax + shipping cost, computed once at creation. -/
theorem c3_order_totals (catalog : List Product) (userId : String) (req : OrderRequest)
    (orderNum fresh : String) (o : Order) (cat' : List Product)
    (h : createOrder catalog userId req orderNum fresh = .ok (o, cat')) :
    o.subtotal = sumItems o.items ∧ o.tax = 0 ∧
    o.totalAmount = o.subtotal + o.tax + o.shippingCost := by
  unfold createOrder at h
  rcases hval : validateItems catalog fresh req.items with e | ⟨s, vitems⟩ <;>
    simp only [hval] at h
  · cases h
  · cases h
    exact ⟨validateItems_subtotal catalog fresh req.items s vitems hval, rfl, rfl⟩

/-- C3 witness: the totals invariants evaluated on the concrete accepted
order (subtotal 2000, tax 0, shipping 300, total 2300). -/
theorem c3_witness :
    okReqOrder.subtotal = sumItems okReqOrder.items ∧ okReqOrder.tax = 0 ∧
    okReqOrder.totalAmount = okReqOrder.subtotal + okReqOrder.tax + okReqOrder.shippingCost :=
  c3_order_totals [sampleProduct] "user1" okReq "VF2510120003" freshSample okReqOrder
    okReqCatalog (by rfl)

/-- Folding additions from an accumulator equals the accumulator plus the
mapped sum. -/
theorem foldl_add_sum (f : ReqItem → Int) (l : List ReqItem) (a : Int) :
    l.foldl (fun s it => s + f it) a = a + (l.map f).sum := by
  induction l generalizing a with
  | nil => simp
  | cons x xs ih =>
    rw [List.foldl_cons, ih (a + f x), List.map_cons, List.sum_cons]
    ring

/-- The mock subtotal is the sum of `(price || 0) * quantity` over the
requested items. -/
theorem mockSubtotal_eq (items : List ReqItem) :
    mockSubtotal items = (items.map (fun it => jsOrOI it.price 0 * it.quantity)).sum := by
  unfold mockSubtotal
  simp only [jsOrII_zero]
  rw [foldl_add_sum (fun it => jsOrOI it.price 0 * it.quantity) items 0, Int.zero_add]

/-- C8: when the datastore is unreachable, a validated POST /api/orders
request is answered 201 with a locally computed mock order — totalAmount is
the sum of item price × quantity plus the shipping cost, orderStatus is
pending, and the order carries a freshly generated order number — while the
catalog is left untouched (nothing persisted, no stock mutated). -/
theorem c8_mock_order (catalog : List Product) (userId : String) (req : OrderRequest)
    (year month day rand : Nat) (fresh : String)
    (hval : validRequest req = true) :
    postOrdersHandler false catalog userId req year month day rand fresh =
      (.mocked (mkMockOrder req year month day rand), catalog) ∧
    (mkMockOrder req year month day rand).totalAmount =
      (req.items.map (fun it => jsOrOI it.price 0 * it.quantity)).sum +
        jsOrOI req.shippingCost 0 ∧
    (mkMockOrder req year month day rand).orderStatus = OrderStatus.pending ∧
    (mkMockOrder req year month day rand).orderNumber =
      mockOrderNumber year month day rand := by
  refine ⟨?_, ?_, rfl, rfl⟩
  · unfold postOrdersHandler
    rw [if_neg (by rw [hval]; decide), if_pos (by decide)]
  · show mockSubtotal req.items + 0 + jsOrOI req.shippingCost 0 = _
    rw [mockSubtotal_eq, Int.add_zero]

/-- C8 witness: the mock branch evaluated on the concrete valid request
(one 2-unit item with no inline price, shipping cost 300) with the sample
catalog: response is the mocked order with total 0 + 300, status pending, the
generated number, and the catalog is unchanged. -/
theorem c8_witness :
    postOrdersHandler false [sampleProduct] "user1" okReq 2025 10 12 3 freshSample =
      (.mocked (mkMockOrder okReq 2025 10 12 3), [sampleProduct]) ∧
    (mkMockOrder okReq 2025 10 12 3).totalAmount =
      (okReq.items.map (fun it => jsOrOI it.price 0 * it.quantity)).sum +
        jsOrOI okReq.shippingCost 0 ∧
    (mkMockOrder okReq 2025 10 12 3).orderStatus = OrderStatus.pending ∧
    (mkMockOrder okReq 2025 10 12 3).orderNumber = mockOrderNumber 2025 10 12 3 :=
  c8_mock_order [sampleProduct] "user1" okReq 2025 10 12 3 freshSample (by decide)

/-- C10 counterexample: an item whose product reference
(`item.productId || item.id` = "zz") is not a valid ObjectId is snapshotted
through the ad-hoc branch with the caller-supplied fields, yet — because its
snapshot stores `item.id`, which here IS a valid catalog ObjectId — the
post-insert loop does issue a stock decrement for it (stock drops 2 → 0),
contradicting the claim that no decrement is issued for such items. -/
theorem c10_cex_adhoc_decrement :
    jsOrS mixedIdItem.productId mixedIdItem.id = some "zz" ∧
    isValidObjectId "zz" = false ∧
    validateItem [sampleProduct] freshSample mixedIdItem =
      .ok { productId := sampleKey, name := "Custom Mix", price := 7, quantity := 2 } ∧
    sampleProduct.stock = 2 ∧
    stockOf (applyStockDecrements [sampleProduct]
      [{ productId := sampleKey, name := "Custom Mix", price := 7, quantity := 2 }])
      sampleKey = 0 := by
  refine ⟨rfl, rfl, rfl, rfl, by decide⟩

/-- C10 amended: an item whose product reference is not a valid ObjectId is
snapshotted with the caller-supplied fields (price defaulting to 0, name to
'Unknown Product') and contributes `(price || 0) × quantity` to the subtotal;
after the insert, a stock decrement is issued for such an item exactly when
its stored productId — `item.id` when truthy, otherwise the generated
frontend placeholder — is itself a valid ObjectId; in particular none is
issued when that stored id is invalid (the placeholder case). -/
theorem c10_adhoc_items (catalog : List Product) (fresh : String) (item : ReqItem)
    (cat : List Product)
    (had : ∀ pid : String, jsOrS item.productId item.id = some pid →
      isValidObjectId pid = false) :
    validateItem catalog fresh item = .ok (adHocItem fresh item) ∧
    (adHocItem fresh item).name = jsOrStr item.name "Unknown Product" ∧
    (adHocItem fresh item).price = jsOrOI item.price 0 ∧
    validateItems catalog fresh [item] =
      .ok (jsOrOI item.price 0 * item.quantity, [adHocItem fresh item]) ∧
    (isValidObjectId (jsOrStr item.id fresh) = false →
      applyStockDecrements cat [adHocItem fresh item] = cat) ∧
    (isValidObjectId (jsOrStr item.id fresh) = true →
      applyStockDecrements cat [adHocItem fresh item] =
        findByIdAndUpdate cat (jsOrStr item.id fresh)
          (fun p => { p with stock := p.stock - item.quantity
                             ordersCount := p.ordersCount + 1 })) := by
  have hvi : validateItem catalog fresh item = .ok (adHocItem fresh item) := by
    unfold validateItem
    rcases href : jsOrS item.productId item.id with _ | pid
    · rfl
    · dsimp only
      rw [if_neg (by rw [had pid href]; exact Bool.false_ne_true)]
  refine ⟨hvi, rfl, rfl, ?_, ?_, ?_⟩
  · unfold validateItems
    rw [hvi]
    show Except.ok ((adHocItem fresh item).price * (adHocItem fresh item).quantity + 0, _) = _
    rw [Int.add_zero]
    rfl
  · intro hinv
    unfold applyStockDecrements
    rw [List.foldl_cons, List.foldl_nil]
    show (if isValidObjectId (jsOrStr item.id fresh) = true then _ else cat) = cat
    rw [if_neg (by rw [hinv]; exact Bool.false_ne_true)]
  · intro hvld
    unfold applyStockDecrements
    rw [List.foldl_cons, List.foldl_nil]
    show (if isValidObjectId (jsOrStr item.id fresh) = true then _ else cat) = _
    rw [if_pos hvld]
    rfl

/-- C10 witness: the amended facts evaluated on the plain ad-hoc item (no
productId, no id, no name, no price, quantity 4) with the usual frontend
placeholder id, which is not a valid ObjectId: the snapshot gets name
'Unknown Product' and price 0, the subtotal contribution is 0, and the sample
catalog is left untouched by the decrement loop. -/
theorem c10_witness :
    validateItem [sampleProduct] freshSample adhocOnlyItem =
      .ok (adHocItem freshSample adhocOnlyItem) ∧
    (adHocItem freshSample adhocOnlyItem).name = jsOrStr adhocOnlyItem.name
      "Unknown Product" ∧
    (adHocItem freshSample adhocOnlyItem).price = jsOrOI adhocOnlyItem.price 0 ∧
    validateItems [sampleProduct] freshSample [adhocOnlyItem] =
      .ok (jsOrOI adhocOnlyItem.price 0 * adhocOnlyItem.quantity,
        [adHocItem freshSample adhocOnlyItem]) ∧
    applyStockDecrements [sampleProduct] [adHocItem freshSample adhocOnlyItem] =
      [sampleProduct] := by
  have h := c10_adhoc_items [sampleProduct] freshSample adhocOnlyItem [sampleProduct]
    (fun pid hpid => by cases hpid)
  exact ⟨h.1, h.2.1, h.2.2.1, h.2.2.2.1, h.2.2.2.2.1 (by decide)⟩

/-! ## Order number lemmas -/

theorem toDigitsCore_append (f : Nat) : ∀ (n : Nat) (acc : List Char),
    Nat.toDigitsCore 10 f n acc = Nat.toDigitsCore 10 f n [] ++ acc := by
  induction f with
  | zero =>
    intro n acc
    rfl
  | succ f ih =>
    intro n acc
    simp only [Nat.toDigitsCore]
    by_cases h : n / 10 = 0
    · rw [if_pos h, if_pos h]
      rfl
    · rw [if_neg h, if_neg h, ih (n / 10) (Nat.digitChar (n % 10) :: acc),
        ih (n / 10) [Nat.digitChar (n % 10)], List.append_assoc]
      rfl

theorem toDigitsCore_len_pos (f n : Nat) (hf : 0 < f) :
    1 ≤ (Nat.toDigitsCore 10 f n []).length := by
  cases f with
  | zero => omega
  | succ f =>
    simp only [Nat.toDigitsCore]
    by_cases h : n / 10 = 0
    · rw [if_pos h]
      simp
    · rw [if_neg h, toDigitsCore_append f (n / 10) [Nat.digitChar (n % 10)]]
      simp

theorem decChars_length_pos (n : Nat) : 1 ≤ (decChars n).length :=
  toDigitsCore_len_pos (n + 1) n (Nat.succ_pos n)

theorem decChars_length_le (n e : Nat) (he : 0 < e) (hlt : n < 10 ^ e) :
    (decChars n).length ≤ e :=
  Nat.toDigitsCore_length 10 (by omega) (n + 1) n e hlt he

theorem decChars_length_ge2 (n : Nat) (h : 10 ≤ n) : 2 ≤ (decChars n).length := by
  unfold decChars Nat.toDigits
  have hd : ¬ n / 10 = 0 := by omega
  show 2 ≤ (Nat.toDigitsCore 10 (n + 1) n []).length
  simp only [Nat.toDigitsCore]
  rw [if_neg hd, toDigitsCore_append n (n / 10) [Nat.digitChar (n % 10)],
    List.length_append]
  have := toDigitsCore_len_pos n (n / 10) (by omega)
  simp only [List.length_cons, List.length_nil]
  omega

theorem digitChar_isDigit : ∀ m : Nat, m < 10 → (Nat.digitChar m).isDigit = true := by
  decide

theorem toDigitsCore_all_digits (f : Nat) : ∀ (n : Nat) (acc : List Char),
    acc.all Char.isDigit = true →
    (Nat.toDigitsCore 10 f n acc).all Char.isDigit = true := by
  induction f with
  | zero =>
    intro n acc hacc
    exact hacc
  | succ f ih =>
    intro n acc hacc
    have hdig : (Nat.digitChar (n % 10) :: acc).all Char.isDigit = true := by
      rw [List.all_cons, digitChar_isDigit (n % 10) (by omega), hacc]
      rfl
    simp only [Nat.toDigitsCore]
    by_cases h : n / 10 = 0
    · rw [if_pos h]
      exact hdig
    · rw [if_neg h]
      exact ih (n / 10) _ hdig

theorem decChars_all_digits (n : Nat) : (decChars n).all Char.isDigit = true :=
  toDigitsCore_all_digits (n + 1) n [] rfl

theorem charVal_digitChar : ∀ m : Nat, m < 10 → charVal (Nat.digitChar m) = m := by
  decide

theorem listVal_append_digit (l : List Char) (c : Char) :
    listVal (l ++ [c]) = listVal l * 10 + charVal c := by
  unfold listVal
  rw [List.foldl_append]
  rfl

theorem listVal_toDigitsCore (f : Nat) : ∀ n : Nat, n < f →
    listVal (Nat.toDigitsCore 10 f n []) = n := by
  induction f with
  | zero =>
    intro n hn
    omega
  | succ f ih =>
    intro n hn
    simp only [Nat.toDigitsCore]
    by_cases h : n / 10 = 0
    · rw [if_pos h]
      have : listVal [Nat.digitChar (n % 10)] = charVal (Nat.digitChar (n % 10)) := by
        unfold listVal
        simp [List.foldl]
      rw [this, charVal_digitChar (n % 10) (by omega)]
      omega
    · rw [if_neg h, toDigitsCore_append f (n / 10) [Nat.digitChar (n % 10)],
        listVal_append_digit, ih (n / 10) (by omega),
        charVal_digitChar (n % 10) (by omega)]
      omega

theorem listVal_decChars (n : Nat) : listVal (decChars n) = n :=
  listVal_toDigitsCore (n + 1) n (Nat.lt_succ_self n)

theorem listVal_replicate_zero (k : Nat) : ∀ l : List Char,
    listVal (List.replicate k '0' ++ l) = listVal l := by
  induction k with
  | zero =>
    intro l
    rfl
  | succ k ih =>
    intro l
    rw [List.replicate_succ, List.cons_append]
    show listVal (List.replicate k '0' ++ l) = listVal l
    exact ih l

theorem listVal_pad4 (r : Nat) : listVal (pad4 r) = r := by
  unfold pad4 padStartChars
  rw [listVal_replicate_zero, listVal_decChars]

theorem pad2_length (m : Nat) (h : m < 100) : (pad2 m).length = 2 := by
  unfold pad2 padStartChars
  rw [List.length_append, List.length_replicate]
  have h1 := decChars_length_le m 2 (by omega) (by omega)
  have h2 := decChars_length_pos m
  omega

theorem pad4_length (r : Nat) (h : r < 10000) : (pad4 r).length = 4 := by
  unfold pad4 padStartChars
  rw [List.length_append, List.length_replicate]
  have h1 := decChars_length_le r 4 (by omega) (by omega)
  have h2 := decChars_length_pos r
  omega

theorem padStartChars_all_digits (l : List Char) (k : Nat)
    (hl : l.all Char.isDigit = true) :
    (padStartChars l k '0').all Char.isDigit = true := by
  unfold padStartChars
  rw [List.all_append, hl, Bool.and_true]
  rw [List.all_eq_true]
  intro c hc
  rw [List.eq_of_mem_replicate hc]
  rfl

theorem sliceLast2_all_digits (l : List Char) (hl : l.all Char.isDigit = true) :
    (sliceLast2 l).all Char.isDigit = true := by
  unfold sliceLast2
  rw [List.all_eq_true] at hl ⊢
  intro c hc
  exact hl c (List.drop_subset _ l hc)

theorem sliceLast2_length (l : List Char) (h : 2 ≤ l.length) :
    (sliceLast2 l).length = 2 := by
  unfold sliceLast2
  rw [List.length_drop]
  omega

/-! ## C7 theorems -/

/-- C7 counterexample: the order-number generator is not injective — two
generation events with equal clock dates modulo a century and equal random
draws produce the very same string (here years 1925 and 2025, both rendering
as "25", with suffix 1234), so distinctness of all numbers generated within a
run is not guaranteed by the generator; nothing prevents `Math.random` from
repeating a draw on the same day. -/
theorem c7_cex_order_number_collision :
    generateOrderNumber 1925 10 12 1234 = generateOrderNumber 2025 10 12 1234 ∧
    (1925 : Nat) ≠ 2025 := by
  exact ⟨by decide, by decide⟩

/-- C7 amended: every generated order number is the fixed prefix "VF"
followed by the 2-character year slice, 2-digit month, 2-digit day and a
4-digit random suffix, all decimal digits; and two numbers generated on the
same date are distinct precisely when their random suffixes differ — i.e.
same-date distinctness holds only for different draws, not for all pairs of
generation events. -/
theorem c7_order_number_format (year month day rand rand' : Nat)
    (hy : 10 ≤ year) (hm : month < 100) (hd : day < 100)
    (hr : rand < 10000) (hr' : rand' < 10000) :
    (generateOrderNumber year month day rand).data =
      'V' :: 'F' :: (sliceLast2 (decChars year) ++ pad2 month ++ pad2 day ++ pad4 rand) ∧
    (sliceLast2 (decChars year)).length = 2 ∧
    (pad2 month).length = 2 ∧
    (pad2 day).length = 2 ∧
    (pad4 rand).length = 4 ∧
    (sliceLast2 (decChars year) ++ pad2 month ++ pad2 day ++ pad4 rand).all
      Char.isDigit = true ∧
    (rand ≠ rand' →
      generateOrderNumber year month day rand ≠ generateOrderNumber year month day rand') := by
  refine ⟨rfl, sliceLast2_length _ (decChars_length_ge2 year hy), pad2_length month hm,
    pad2_length day hd, pad4_length rand hr, ?_, ?_⟩
  · rw [List.all_append, List.all_append, List.all_append,
      sliceLast2_all_digits _ (decChars_all_digits year)]
    unfold pad2 pad4
    rw [padStartChars_all_digits _ _ (decChars_all_digits month),
      padStartChars_all_digits _ _ (decChars_all_digits day),
      padStartChars_all_digits _ _ (decChars_all_digits rand)]
    rfl
  · intro hne heq
    have hdata := congrArg String.data heq
    simp only [generateOrderNumber] at hdata
    have h1 : sliceLast2 (decChars year) ++ (pad2 month ++ (pad2 day ++ pad4 rand)) =
        sliceLast2 (decChars year) ++ (pad2 month ++ (pad2 day ++ pad4 rand')) := by
      injection hdata with h hdata'
      injection hdata' with h hdata''
      simpa [List.append_assoc] using hdata''
    have h2 := List.append_cancel_left h1
    have h3 := List.append_cancel_left h2
    have h4 := List.append_cancel_left h3
    have := congrArg listVal h4
    rw [listVal_pad4, listVal_pad4] at this
    exact hne this

/-- C7 witness: the amended same-date distinctness applied at year 2025,
date 10-12, suffixes 1234 and 5678. -/
theorem c7_witness :
    (10 : Nat) ≤ 2025 ∧ (1234 : Nat) < 10000 ∧ (5678 : Nat) < 10000 ∧
    generateOrderNumber 2025 10 12 1234 ≠ generateOrderNumber 2025 10 12 5678 :=
  ⟨by decide, by decide, by decide,
    (c7_order_number_format 2025 10 12 1234 5678 (by decide) (by decide) (by decide)
      (by decide) (by decide)).2.2.2.2.2.2 (by decide)⟩

end Virello
